import Mathlib

/-!
Verification of the OAuth callback / session-establishment core of a
browser-based authentication front end (React + authService + Supabase).

The JavaScript source is shallowly embedded: browser storage becomes an
association list, URL query strings and fragments are parsed by explicit
string functions, network calls become oracle parameters describing their
outcome, and each callback handler becomes a pure function from its inputs
to a result record (outcome, updated storage, emitted navigation events).
JavaScript truthiness (`if (x)`) is modelled by `jsTruthy` on optional
strings; `parseInt(x) || d` is modelled by `jsParseIntOpt` / `orDefaultInt`.
-/

/-- Browser `localStorage` / `sessionStorage`: an association list from key
to string value.  `setItem` replaces, `removeItem` deletes, `getItem`
returns `none` for an absent key (JS `null`). -/
abbrev Storage := List (String × String)

def Storage.getItem (st : Storage) (k : String) : Option String :=
  match st.find? (fun p => p.1 == k) with
  | some p => some p.2
  | none => none

def Storage.setItem (st : Storage) (k v : String) : Storage :=
  (k, v) :: st.filter (fun p => p.1 != k)

def Storage.removeItem (st : Storage) (k : String) : Storage :=
  st.filter (fun p => p.1 != k)

/-- JS truthiness of a string-or-null value: `null` and `""` are falsy. -/
def jsTruthy : Option String → Bool
  | none => false
  | some s => s != ""

/-- Model of `URLSearchParams.get(k)`: first value for the key, or `null`. -/
def getParam (ps : List (String × String)) (k : String) : Option String :=
  match ps.find? (fun p => p.1 == k) with
  | some p => some p.2
  | none => none

/-- Split a character list at every occurrence of `sep`, keeping empty
pieces (the accumulator holds the current piece reversed). -/
def splitOnCharAux (sep : Char) : List Char → List Char → List (List Char)
  | [], acc => [acc.reverse]
  | c :: rest, acc =>
    if c = sep then acc.reverse :: splitOnCharAux sep rest []
    else splitOnCharAux sep rest (c :: acc)

/-- Split at the first occurrence of `sep`: the part before it, and the
part after it when `sep` occurs at all. -/
def splitFirst (sep : Char) : List Char → List Char × Option (List Char)
  | [] => ([], none)
  | c :: rest =>
    if c = sep then ([], some rest)
    else
      let p := splitFirst sep rest
      (c :: p.1, p.2)

/-- One `k=v` piece of a query string: the key is everything before the
first `=`, the value everything after it (`""` when there is no `=`). -/
def parsePair (cs : List Char) : String × String :=
  match splitFirst '=' cs with
  | (k, none) => (String.mk k, "")
  | (k, some v) => (String.mk k, String.mk v)

/-- Parse a query/fragment string `"a=b&c=d"` into key/value pairs, as
`new URLSearchParams(s)` does: split on `&`, drop empty pieces, split each
piece at its first `=` (percent-decoding is not modelled; the callback
values used here contain no escapes). -/
def parseQueryString (s : String) : List (String × String) :=
  (splitOnCharAux '&' s.toList []).filterMap (fun cs =>
    if cs = [] then none else some (parsePair cs))

/-- Test whether `pat` occurs at the head of `cs`. -/
def leadsWith : List Char → List Char → Bool
  | [], _ => true
  | _ :: _, [] => false
  | a :: pat, b :: cs => a = b && leadsWith pat cs

/-- Test whether `pat` occurs somewhere in `cs`. -/
def containsRun (pat : List Char) : List Char → Bool
  | [] => leadsWith pat []
  | c :: rest => leadsWith pat (c :: rest) || containsRun pat rest

/-- Model of `String.prototype.includes`: `s` contains `pat` as a substring. -/
def strContains (s pat : String) : Bool :=
  containsRun pat.toList s.toList

/-- Accumulate the leading decimal digits of a character list. -/
def jsDigitsAcc : List Char → Nat → Nat
  | [], acc => acc
  | c :: rest, acc =>
    if c.isDigit then jsDigitsAcc rest (acc * 10 + (c.toNat - 48)) else acc

/-- Value of the longest digit run at the head of the list, `none` when the
head is not a digit (JS `parseInt` returning `NaN`). -/
def jsParseIntCore : List Char → Option Nat
  | [] => none
  | c :: rest =>
    if c.isDigit then some (jsDigitsAcc rest (c.toNat - 48)) else none

/-- JS `parseInt` on a string: skip leading spaces, optional sign, then the
longest digit prefix; `none` models `NaN`. -/
def jsParseInt (s : String) : Option Int :=
  let cs := s.toList.dropWhile (fun c => c = ' ')
  match cs with
  | '-' :: rest => (jsParseIntCore rest).map (fun n => -(n : Int))
  | '+' :: rest => (jsParseIntCore rest).map (fun n => (n : Int))
  | rest => (jsParseIntCore rest).map (fun n => (n : Int))

/-- JS `parseInt` applied to a `string | null` value: `parseInt(null)` parses
the string `"null"`, which is `NaN`. -/
def jsParseIntOpt : Option String → Option Int
  | none => none
  | some s => jsParseInt s

/-- JS `v || d` for a number that may be `NaN` (`none`): `NaN` and `0` are
falsy, so both fall back to the default. -/
def orDefaultInt (o : Option Int) (d : Int) : Int :=
  match o with
  | some v => if v = 0 then d else v
  | none => d

/-- JS `v || d` for a `string | null`: `null` and `""` are falsy. -/
def orDefaultStr (o : Option String) (d : String) : String :=
  match o with
  | some v => if v = "" then d else v
  | none => d

section GoogleFlow

/-- Outcome of the backend token-exchange request issued by
`handleGoogleCallback` (`POST /google/callback`): a network/provider error
carrying the extracted message, or a response whose body may or may not
contain an `access_token`. -/
inductive ExchangeResult where
  | netError (message : String)
  | ok (accessToken : Option String)
deriving Repr, DecidableEq

/-- Model of `authService.handleGoogleCallback(code, state)` after the exchange
outcome is known: on error the message is rethrown (rewritten when it
mentions a disabled/unconfigured server); on a response, the bearer token
is stored under `token` only when `response.data.access_token` is truthy,
and the response data is returned as success either way. -/
def handleGoogleCallbackM (ex : ExchangeResult) (ls : Storage) :
    Except String (Option String) × Storage :=
  match ex with
  | .netError m =>
    if strContains m "not configured" || strContains m "disabled" then
      (Except.error
        "Google OAuth is not configured on the server. Please contact the administrator.",
        ls)
    else (Except.error m, ls)
  | .ok tok? =>
    if jsTruthy tok? then (Except.ok tok?, ls.setItem "token" (tok?.getD ""))
    else (Except.ok tok?, ls)

/-- User-facing outcome of the `GoogleCallback` route handler. -/
inductive GoogleCbOutcome where
  | providerError (e : String)
  | missingCode
  | missingState
  | missingStoredState
  | stateMismatch
  | exchangeFailed (message : String)
  | established
deriving Repr, DecidableEq

structure GoogleCbResult where
  outcome : GoogleCbOutcome
  sessionStorage : Storage
  localStorage : Storage
  exchangeAttempted : Bool
  navigatedTo : Option String
deriving Repr, DecidableEq

/-- The `GoogleCallback` component effect: reads `code`, `state`, `error`
from the query, checks the stored `google_oauth_state`, validates the state
parameter, removes the stored state, and only then exchanges the code via
`handleGoogleCallback`. `q` is the parsed query string, `ex` the exchange
oracle, `ss` the tab's `sessionStorage`, `ls` the `localStorage`. -/
def googleCallback (q : List (String × String)) (ex : ExchangeResult)
    (ss ls : Storage) : GoogleCbResult :=
  let code? := getParam q "code"
  let state? := getParam q "state"
  let err? := getParam q "error"
  if jsTruthy err? then
    { outcome := .providerError (err?.getD ""), sessionStorage := ss,
      localStorage := ls, exchangeAttempted := false, navigatedTo := none }
  else if ¬ jsTruthy code? then
    { outcome := .missingCode, sessionStorage := ss, localStorage := ls,
      exchangeAttempted := false, navigatedTo := none }
  else if ¬ jsTruthy state? then
    { outcome := .missingState, sessionStorage := ss, localStorage := ls,
      exchangeAttempted := false, navigatedTo := none }
  else if ¬ jsTruthy (ss.getItem "google_oauth_state") then
    { outcome := .missingStoredState, sessionStorage := ss,
      localStorage := ls, exchangeAttempted := false, navigatedTo := none }
  else if state? ≠ ss.getItem "google_oauth_state" then
    { outcome := .stateMismatch, sessionStorage := ss, localStorage := ls,
      exchangeAttempted := false, navigatedTo := none }
  else
    let ss2 := ss.removeItem "google_oauth_state"
    match handleGoogleCallbackM ex ls with
    | (Except.error m, ls2) =>
      { outcome := .exchangeFailed m, sessionStorage := ss2,
        localStorage := ls2, exchangeAttempted := true, navigatedTo := none }
    | (Except.ok _, ls2) =>
      { outcome := .established, sessionStorage := ss2, localStorage := ls2,
        exchangeAttempted := true, navigatedTo := some "/dashboard" }

end GoogleFlow

section ImplicitFlow

/-- The session object built from an implicit-flow fragment, mirroring the
object literal in `SupabaseCallback` / `SupabaseErrorHandler`.
`expires_at` is `Date.now()/1000 + (parseInt(expires_in) || 3600)`,
modelled over integer seconds `now`. -/
structure SupabaseSession where
  access_token : String
  refresh_token : Option String
  expires_in : Int
  token_type : String
  expires_at : Int
deriving Repr, DecidableEq

/-- Build the session record from the parsed fragment parameters, exactly
as the handler's object literal does (`parseInt(expiresIn) || 3600`,
`tokenType || 'bearer'`). -/
def mkImplicitSession (ps : List (String × String)) (now : Int) :
    SupabaseSession :=
  let e := orDefaultInt (jsParseIntOpt (getParam ps "expires_in")) 3600
  { access_token := (getParam ps "access_token").getD ""
    refresh_token := getParam ps "refresh_token"
    expires_in := e
    token_type := orDefaultStr (getParam ps "token_type") "bearer"
    expires_at := now + e }

/-- Result of parsing an implicit-flow callback fragment. -/
inductive ImplicitParseResult where
  | missingFragment
  | missingAccessToken
  | parsed (s : SupabaseSession)
deriving Repr, DecidableEq

/-- The fragment-parsing portion of the implicit-flow handler
(`SupabaseCallback`): `hash` is `window.location.hash`, `""` when the URL
has no fragment and otherwise beginning with the `#` character, which
`hash.substring(1)` strips before `new URLSearchParams` parses it.  A
missing or empty `access_token` value is rejected by the `if (!accessToken)`
truthiness check. -/
def parseImplicitCallback (hash : String) (now : Int) : ImplicitParseResult :=
  if hash = "" then .missingFragment
  else
    let ps := parseQueryString (hash.drop 1)
    if ¬ jsTruthy (getParam ps "access_token") then .missingAccessToken
    else .parsed (mkImplicitSession ps now)

/-- The subject returned by `supabase.auth.getUser()`. -/
structure SupabaseUser where
  id : String
  email : Option String
  full_name : Option String
deriving Repr, DecidableEq

/-- Outcome of the `getUser()` identity lookup: an error object, a response
with no user, or a user. -/
inductive GetUserResult where
  | err (message : String)
  | noUser
  | ok (u : SupabaseUser)
deriving Repr, DecidableEq

/-- The record passed to the auth context `login` by `SupabaseCallback`. -/
structure AuthUser where
  username : String
  email : Option String
  auth_method : String
  supabase_id : String
deriving Repr, DecidableEq

/-- JS `a || b` on strings where `""` is falsy. -/
def jsOrStr (a b : String) : String :=
  if a = "" then b else a

/-- JS `user.user_metadata?.full_name || user.email?.split('@')[0] ||
'Supabase User'`, with the remaining context fields. -/
def authUserOfSupabase (u : SupabaseUser) : AuthUser :=
  let emailPart :=
    match u.email with
    | some e => String.mk (splitFirst '@' e.toList).1
    | none => ""
  { username := jsOrStr (u.full_name.getD "") (jsOrStr emailPart "Supabase User")
    email := u.email
    auth_method := "supabase"
    supabase_id := u.id }

/-- Here `JSON.stringify(session)` is modelled by an injective textual encoding;
no modelled code path parses the stored string back. -/
def encodeSession (s : SupabaseSession) : String :=
  String.intercalate "|"
    [s.access_token, s.refresh_token.getD "", toString s.expires_in,
     s.token_type, toString s.expires_at]

/-- Address-bar / history effects emitted by a handler.
`historyReplace` is `window.history.replaceState(null, '', path)` (no
reload, replaces the current entry); `assignHref` is an assignment to
`window.location.href` (full navigation, pushes a history entry);
`routerNavigate` is the react-router `navigate(path)` call (client-side
push, no reload). -/
inductive NavEvent where
  | historyReplace (path : String)
  | assignHref (url : String)
  | routerNavigate (path : String)
deriving Repr, DecidableEq

/-- Outcome of the implicit-flow callback handlers. -/
inductive SupCbOutcome where
  | providerError (e : String) (description : Option String)
  | missingFragment
  | missingAccessToken
  | configMissing
  | identityFetchFailed (message : String)
  | established
  | ignored
  | stateErrorRedirect
deriving Repr, DecidableEq

structure SupCbResult where
  outcome : SupCbOutcome
  storage : Storage
  contextLogin : Option AuthUser
  nav : List NavEvent
  finalHash : String
deriving Repr, DecidableEq

/-- The `SupabaseCallback` route handler (`/auth/supabase/callback`):
checks the `error` query parameter, requires a fragment with a truthy
`access_token`, requires the Supabase configuration, builds the session,
calls `setSession` (whose result the source ignores), performs the
`getUser()` identity lookup, and only on success writes
`supabase_session` and `token` to `localStorage`, calls the context
`login`, and navigates to the dashboard.  On every failure path it only
sets a component-local error message: storage is untouched and no
navigation or history replacement happens, so the fragment stays in the
visible URL. -/
def supabaseCallback (q : List (String × String)) (hash : String)
    (configOk : Bool) (getUserR : GetUserResult) (now : Int)
    (ls : Storage) : SupCbResult :=
  let err? := getParam q "error"
  if jsTruthy err? then
    { outcome := .providerError (err?.getD "") (getParam q "error_description"),
      storage := ls, contextLogin := none, nav := [], finalHash := hash }
  else if hash = "" then
    { outcome := .missingFragment, storage := ls, contextLogin := none,
      nav := [], finalHash := hash }
  else
    let ps := parseQueryString (hash.drop 1)
    if ¬ jsTruthy (getParam ps "access_token") then
      { outcome := .missingAccessToken, storage := ls, contextLogin := none,
        nav := [], finalHash := hash }
    else if ¬ configOk then
      { outcome := .configMissing, storage := ls, contextLogin := none,
        nav := [], finalHash := hash }
    else
      let session := mkImplicitSession ps now
      match getUserR with
      | .err m =>
        { outcome := .identityFetchFailed m, storage := ls,
          contextLogin := none, nav := [], finalHash := hash }
      | .noUser =>
        { outcome := .identityFetchFailed "No user found after setting session",
          storage := ls, contextLogin := none, nav := [], finalHash := hash }
      | .ok u =>
        let ls2 := (ls.setItem "supabase_session" (encodeSession session)).setItem
          "token" session.access_token
        { outcome := .established, storage := ls2,
          contextLogin := some (authUserOfSupabase u),
          nav := [.routerNavigate "/dashboard"], finalHash := "" }

/-- The root-route handler (`SupabaseErrorHandler` at `/`): redirects a
`bad_oauth_state` provider error to the login page; quietly ignores visits
without a fragment or without an `access_token`; otherwise establishes the
session the same way and, on success, clears the fragment with
`history.replaceState(null, '', pathname)` before redirecting to the
dashboard.  Any thrown error (missing configuration, identity failure) is
caught and turned into a login-page redirect. -/
def supabaseRootHandler (q : List (String × String)) (hash pathname : String)
    (configOk : Bool) (getUserR : GetUserResult) (now : Int)
    (ls : Storage) : SupCbResult :=
  let err? := getParam q "error"
  let desc? := getParam q "error_description"
  if err? == some "invalid_request" &&
      (match desc? with
       | some d => strContains d "bad_oauth_state"
       | none => false) then
    { outcome := .stateErrorRedirect, storage := ls, contextLogin := none,
      nav := [.assignHref "/login?error=supabase_oauth_state_error"],
      finalHash := hash }
  else if hash = "" then
    { outcome := .ignored, storage := ls, contextLogin := none, nav := [],
      finalHash := hash }
  else
    let ps := parseQueryString (hash.drop 1)
    if ¬ jsTruthy (getParam ps "access_token") then
      { outcome := .ignored, storage := ls, contextLogin := none, nav := [],
        finalHash := hash }
    else if ¬ configOk then
      { outcome := .configMissing, storage := ls, contextLogin := none,
        nav := [.assignHref "/login?error=oauth_error&message=Supabase configuration is missing"],
        finalHash := hash }
    else
      let session := mkImplicitSession ps now
      match getUserR with
      | .err m =>
        { outcome := .identityFetchFailed m, storage := ls,
          contextLogin := none,
          nav := [.assignHref ("/login?error=oauth_error&message=" ++ m)],
          finalHash := hash }
      | .noUser =>
        { outcome := .identityFetchFailed "No user found after setting session",
          storage := ls, contextLogin := none,
          nav := [.assignHref
            "/login?error=oauth_error&message=No user found after setting session"],
          finalHash := hash }
      | .ok _ =>
        let ls2 := (ls.setItem "supabase_session" (encodeSession session)).setItem
          "token" session.access_token
        { outcome := .established, storage := ls2, contextLogin := none,
          nav := [.historyReplace pathname, .assignHref "/dashboard"],
          finalHash := "" }

end ImplicitFlow

section StoreAndNotifier

/-- Outcome of the remote `supabase.auth.signOut()` call: success, an
error value in the returned object, or a rejected promise. -/
inductive RemoteSignOutResult where
  | ok
  | errValue (message : String)
  | throws (message : String)
deriving Repr, DecidableEq

/-- Model of `authService.logout()` (the Supabase-aware variant): when a
`supabase_session` value is stored and the configuration is present, the
remote `signOut` runs and an error *value* is only logged; a *thrown*
remote error is caught, both keys are removed, and `true` is still
returned.  On the normal path `supabase_session` (when truthy) and `token`
are removed and `true` is returned. -/
def logout (configOk : Bool) (remote : RemoteSignOutResult)
    (ls : Storage) : Bool × Storage :=
  if jsTruthy (ls.getItem "supabase_session") then
    if configOk then
      match remote with
      | .throws _ =>
        (true, (ls.removeItem "token").removeItem "supabase_session")
      | _ =>
        (true, (ls.removeItem "supabase_session").removeItem "token")
    else (true, (ls.removeItem "supabase_session").removeItem "token")
  else (true, ls.removeItem "token")

/-- Model of `supabaseDirect.signOut()`: a remote error is thrown and rethrown by
the catch block, so `supabase_token` is removed only when the remote call
succeeds. -/
def signOutDirect (remote : RemoteSignOutResult) (ls : Storage) :
    Except String Unit × Storage :=
  match remote with
  | .ok => (Except.ok (), ls.removeItem "supabase_token")
  | .errValue m => (Except.error m, ls)
  | .throws m => (Except.error m, ls)

/-- The `AuthContext.checkAuthStatus` read of persisted state: authenticated
iff `token` or `supabase_session` holds a truthy value. -/
def checkAuthStatus (ls : Storage) : Bool :=
  jsTruthy (ls.getItem "token") || jsTruthy (ls.getItem "supabase_session")

/-- Model of `App.isAuthenticated`: `localStorage.getItem('token') !== null` — a
strict null comparison, not a truthiness test. -/
def appIsAuthenticated (ls : Storage) : Bool :=
  (ls.getItem "token").isSome

/-- The `AuthContext` cross-tab storage listener reacts only to changes of
the `token` and `supabase_session` keys. -/
def storageListenerReacts (key : String) : Bool :=
  key == "token" || key == "supabase_session"

/-- Outcome of `supabase.auth.getSession()` in `supabaseDirect`. -/
inductive GetSessionResult where
  | err (message : String)
  | noSession
  | ok (accessToken : String)
deriving Repr, DecidableEq

/-- Model of `supabaseDirect.handleSupabaseCallback()`: on a session, stores its
access token under `supabase_token` and returns it; otherwise throws. -/
def handleSupabaseCallbackD (r : GetSessionResult) (ls : Storage) :
    Except String String × Storage :=
  match r with
  | .err m => (Except.error m, ls)
  | .noSession => (Except.error "No session found", ls)
  | .ok tok => (Except.ok tok, ls.setItem "supabase_token" tok)

/-- Events observable during the `AuthProvider` mount effect. -/
inductive MountEvent where
  | storageRead (key : String)
  | setLoadingFalse
  | networkCall (url : String)
deriving Repr, DecidableEq

/-- Whether a mount event is a network call. -/
def isNetworkCall : MountEvent → Bool
  | .networkCall _ => true
  | _ => false

/-- Auth Status Notifier state exposed by `AuthContext`. -/
structure AuthState where
  isAuthenticated : Bool
  user : Option AuthUser
  loading : Bool
deriving Repr, DecidableEq

/-- The `AuthProvider` mount: `useState` seeds
`isAuthenticated = false, user = null, loading = true`; the mount effect
(`checkAuthStatus`) synchronously reads `token` and `supabase_session`
from `localStorage`, sets `isAuthenticated` accordingly, and then sets
`loading` to `false`.  The returned triple is the initial state, the state
after the effect, and the ordered event trace of the effect. -/
def authProviderMount (ls : Storage) :
    AuthState × AuthState × List MountEvent :=
  let initial : AuthState :=
    { isAuthenticated := false, user := none, loading := true }
  let authed := checkAuthStatus ls
  let final : AuthState :=
    { isAuthenticated := authed, user := none, loading := false }
  (initial, final,
   [.storageRead "token", .storageRead "supabase_session", .setLoadingFalse])

end StoreAndNotifier

section RegisterForm

/-- Component-local state of the `Register` form after a submit. -/
structure RegisterViewState where
  error : String
  success : String
  loading : Bool
deriving Repr, DecidableEq

structure RegisterSubmitResult where
  view : RegisterViewState
  storage : Storage
  requestSent : Bool
deriving Repr, DecidableEq

/-- Model of `Register.handleSubmit`: clears the messages, rejects mismatched
passwords before `setLoading(true)` and before any call to `register`;
otherwise performs the registration request (which writes nothing to
storage) and reports the outcome. -/
def registerSubmit (password confirmPassword : String)
    (remote : Except String Unit) (ls : Storage) : RegisterSubmitResult :=
  if password ≠ confirmPassword then
    { view := { error := "Passwords do not match", success := "",
                loading := false },
      storage := ls, requestSent := false }
  else
    match remote with
    | Except.ok _ =>
      { view := { error := "",
                  success := "Registration successful! Redirecting to login...",
                  loading := false },
        storage := ls, requestSent := true }
    | Except.error m =>
      { view := { error := m, success := "", loading := false },
        storage := ls, requestSent := true }

end RegisterForm

section StorageLemmas

theorem find_after_filter_eq (l : Storage) (k : String) :
    (l.filter (fun p => p.1 != k)).find? (fun p => p.1 == k) = none := by
  induction l with
  | nil => rfl
  | cons p rest ih =>
    by_cases h : p.1 = k
    · simp [List.filter_cons, h, ih]
    · simp [List.filter_cons, h, List.find?_cons, ih]

theorem find_after_filter_ne (l : Storage) (k k2 : String) (h : k2 ≠ k) :
    (l.filter (fun p => p.1 != k)).find? (fun p => p.1 == k2) =
      l.find? (fun p => p.1 == k2) := by
  induction l with
  | nil => rfl
  | cons p rest ih =>
    by_cases hp : p.1 = k
    · simp [List.filter_cons, List.find?_cons, hp, Ne.symm h, ih]
    · by_cases hq : p.1 = k2
      · simp [List.filter_cons, List.find?_cons, hp, hq, h]
      · simp [List.filter_cons, List.find?_cons, hp, hq, ih]

theorem Storage.getItem_removeItem (l : Storage) (k : String) :
    (Storage.removeItem l k).getItem k = none := by
  unfold Storage.getItem Storage.removeItem
  rw [find_after_filter_eq]

theorem Storage.getItem_removeItem_ne (l : Storage) (k k2 : String)
    (h : k2 ≠ k) : (Storage.removeItem l k).getItem k2 = l.getItem k2 := by
  unfold Storage.getItem Storage.removeItem
  rw [find_after_filter_ne l k k2 h]

theorem Storage.getItem_setItem_self (l : Storage) (k v : String) :
    (Storage.setItem l k v).getItem k = some v := by
  unfold Storage.getItem Storage.setItem
  simp [List.find?_cons]

theorem Storage.getItem_setItem_ne (l : Storage) (k v k2 : String)
    (h : k2 ≠ k) : (Storage.setItem l k v).getItem k2 = l.getItem k2 := by
  have hk : ((k, v).1 == k2) = false :=
    beq_eq_false_iff_ne.mpr (fun hk => h hk.symm)
  unfold Storage.getItem Storage.setItem
  rw [List.find?_cons, hk]
  dsimp only
  rw [find_after_filter_ne l k k2 h]

end StorageLemmas

/-- C1: for every code-callback URL whose `state` parameter differs from
the value stored at issue time (with the parameters present and no
provider error), the `GoogleCallback` establishment fails with a state
mismatch and no token exchange is attempted; moreover, across all inputs,
an exchange is attempted only when the received state equals the stored
one, so the state check strictly precedes any exchange call. -/
theorem googleCallback_state_mismatch_no_exchange
    (q : List (String × String)) (ex : ExchangeResult) (ss ls : Storage)
    (herr : jsTruthy (getParam q "error") = false)
    (hcode : jsTruthy (getParam q "code") = true)
    (hstate : jsTruthy (getParam q "state") = true)
    (hstored : jsTruthy (ss.getItem "google_oauth_state") = true)
    (hne : getParam q "state" ≠ ss.getItem "google_oauth_state") :
    (googleCallback q ex ss ls).outcome = .stateMismatch ∧
    (googleCallback q ex ss ls).exchangeAttempted = false ∧
    ∀ q2 ex2 ss2 ls2,
      (googleCallback q2 ex2 ss2 ls2).exchangeAttempted = true →
      getParam q2 "state" = Storage.getItem ss2 "google_oauth_state" := by
  have hred : googleCallback q ex ss ls =
      { outcome := .stateMismatch, sessionStorage := ss, localStorage := ls,
        exchangeAttempted := false, navigatedTo := none } := by
    simp [googleCallback, herr, hcode, hstate, hstored, hne]
  refine ⟨by rw [hred], by rw [hred], ?_⟩
  intro q2 ex2 ss2 ls2 h
  by_cases he : jsTruthy (getParam q2 "error")
  · simp [googleCallback, he] at h
  · by_cases hc : jsTruthy (getParam q2 "code")
    · by_cases hs : jsTruthy (getParam q2 "state")
      · by_cases hst : jsTruthy (Storage.getItem ss2 "google_oauth_state")
        · by_cases hm : getParam q2 "state" =
              Storage.getItem ss2 "google_oauth_state"
          · exact hm
          · simp [googleCallback, he, hc, hs, hst, hm] at h
        · simp [googleCallback, he, hc, hs, hst] at h
      · simp [googleCallback, he, hc, hs] at h
    · simp [googleCallback, he, hc] at h

theorem googleCallback_state_mismatch_no_exchange_witness :
    getParam [("code", "c"), ("state", "b")] "state" ≠
      Storage.getItem [("google_oauth_state", "a")] "google_oauth_state" ∧
    (googleCallback [("code", "c"), ("state", "b")] (.ok (some "t"))
        [("google_oauth_state", "a")] []).outcome = .stateMismatch ∧
    (googleCallback [("code", "c"), ("state", "b")] (.ok (some "t"))
        [("google_oauth_state", "a")] []).exchangeAttempted = false :=
  ⟨by decide,
   (googleCallback_state_mismatch_no_exchange
      [("code", "c"), ("state", "b")] (.ok (some "t"))
      [("google_oauth_state", "a")] [] (by decide) (by decide) (by decide)
      (by decide) (by decide)).1,
   (googleCallback_state_mismatch_no_exchange
      [("code", "c"), ("state", "b")] (.ok (some "t"))
      [("google_oauth_state", "a")] [] (by decide) (by decide) (by decide)
      (by decide) (by decide)).2.1⟩

/-- C2 counterexample: a validation attempt that fails with a state
mismatch leaves the stored `google_oauth_state` token in place — the
stored token is removed only after the equality check has succeeded, so a
failed validation does not consume it. -/
theorem googleCallback_mismatch_keeps_stored_state :
    (googleCallback [("code", "c"), ("state", "b")] (.ok (some "t"))
        [("google_oauth_state", "a")] []).outcome = .stateMismatch ∧
    Storage.getItem
        (googleCallback [("code", "c"), ("state", "b")] (.ok (some "t"))
          [("google_oauth_state", "a")] []).sessionStorage
        "google_oauth_state" = some "a" := by
  decide

/-- C2 amended: the stored state token is deleted when validation
succeeds (received state equal to the stored value); on a mismatch
failure the stored token survives the attempt. -/
theorem googleCallback_success_deletes_stored_state
    (q : List (String × String)) (ex : ExchangeResult) (ss ls : Storage)
    (herr : jsTruthy (getParam q "error") = false)
    (hcode : jsTruthy (getParam q "code") = true)
    (hstate : jsTruthy (getParam q "state") = true)
    (hstored : jsTruthy (ss.getItem "google_oauth_state") = true)
    (heq : getParam q "state" = ss.getItem "google_oauth_state") :
    Storage.getItem (googleCallback q ex ss ls).sessionStorage
        "google_oauth_state" = none ∧
    ∀ q2 ex2 ss2 ls2,
      (googleCallback q2 ex2 ss2 ls2).outcome = .stateMismatch →
      (googleCallback q2 ex2 ss2 ls2).sessionStorage = ss2 := by
  constructor
  · have hbody : (googleCallback q ex ss ls).sessionStorage =
        Storage.removeItem ss "google_oauth_state" := by
      rcases hM : handleGoogleCallbackM ex ls with ⟨r, ls2⟩
      cases r <;> simp [googleCallback, herr, hcode, hstate, hstored, heq, hM]
    rw [hbody]
    exact Storage.getItem_removeItem ss "google_oauth_state"
  · intro q2 ex2 ss2 ls2 h
    by_cases he : jsTruthy (getParam q2 "error")
    · simp [googleCallback, he]
    · by_cases hc : jsTruthy (getParam q2 "code")
      · by_cases hs : jsTruthy (getParam q2 "state")
        · by_cases hst : jsTruthy (Storage.getItem ss2 "google_oauth_state")
          · by_cases hm : getParam q2 "state" =
                Storage.getItem ss2 "google_oauth_state"
            · exfalso
              rcases hM : handleGoogleCallbackM ex2 ls2 with ⟨r, ls3⟩
              cases r <;>
                simp [googleCallback, he, hc, hs, hst, hm, hM] at h
            · simp [googleCallback, he, hc, hs, hst, hm]
          · simp [googleCallback, he, hc, hs, hst]
        · simp [googleCallback, he, hc, hs]
      · simp [googleCallback, he, hc]

theorem googleCallback_success_deletes_stored_state_witness :
    getParam [("code", "c"), ("state", "a")] "state" =
      Storage.getItem [("google_oauth_state", "a")] "google_oauth_state" ∧
    Storage.getItem
      (googleCallback [("code", "c"), ("state", "a")] (.ok (some "t"))
        [("google_oauth_state", "a")] []).sessionStorage
      "google_oauth_state" = none :=
  ⟨by decide,
   (googleCallback_success_deletes_stored_state
      [("code", "c"), ("state", "a")] (.ok (some "t"))
      [("google_oauth_state", "a")] [] (by decide) (by decide) (by decide)
      (by decide) (by decide)).1⟩

/-- C3 counterexample: an implicit-flow callback handled by the
`SupabaseCallback` route whose fragment carries an `access_token` — here
one whose identity lookup fails — ends with the fragment still present in
the visible URL and with no history replacement (and no navigation at
all), so the fragment is not removed from the visible address after
parsing. -/
theorem supabaseCallback_leaves_fragment_visible :
    (supabaseCallback [] "#access_token=tok1" true (.err "identity failure")
        0 []).finalHash = "#access_token=tok1" ∧
    (supabaseCallback [] "#access_token=tok1" true (.err "identity failure")
        0 []).nav = [] ∧
    strContains "#access_token=tok1" "access_token" = true := by
  decide

/-- C3 amended: only the root-route handler (`SupabaseErrorHandler`)
clears the fragment, via `history.replaceState` without a reload, and only
after a fully successful establishment; the `SupabaseCallback` route
handler never performs a history replacement, so on its paths the fragment
is not removed from the visible address. -/
theorem supabaseRootHandler_success_clears_fragment
    (q : List (String × String)) (hash pathname : String) (u : SupabaseUser)
    (now : Int) (ls : Storage)
    (herr : getParam q "error" ≠ some "invalid_request")
    (hh : hash ≠ "")
    (htok : jsTruthy (getParam (parseQueryString (hash.drop 1))
        "access_token") = true) :
    ((supabaseRootHandler q hash pathname true (.ok u) now ls).nav =
        [NavEvent.historyReplace pathname, NavEvent.assignHref "/dashboard"] ∧
      (supabaseRootHandler q hash pathname true (.ok u) now ls).finalHash
        = "") ∧
    ∀ q2 hash2 cfg g now2 ls2 p,
      NavEvent.historyReplace p ∉ (supabaseCallback q2 hash2 cfg g now2 ls2).nav := by
  constructor
  · constructor <;> simp [supabaseRootHandler, herr, hh, htok]
  · intro q2 hash2 cfg g now2 ls2 p
    by_cases he : jsTruthy (getParam q2 "error")
    · simp [supabaseCallback, he]
    · by_cases h2 : hash2 = ""
      · simp [supabaseCallback, he, h2]
      · by_cases ht : jsTruthy (getParam (parseQueryString (hash2.drop 1))
            "access_token")
        · by_cases hcfg : cfg
          · cases g <;> simp [supabaseCallback, he, h2, ht, hcfg]
          · simp [supabaseCallback, he, h2, ht, hcfg]
        · simp [supabaseCallback, he, h2, ht]

theorem supabaseRootHandler_success_clears_fragment_witness :
    (supabaseRootHandler [] "#access_token=tok1" "/" true
        (.ok { id := "u1", email := some "a@b", full_name := none }) 0
        []).nav =
      [NavEvent.historyReplace "/", NavEvent.assignHref "/dashboard"] ∧
    (supabaseRootHandler [] "#access_token=tok1" "/" true
        (.ok { id := "u1", email := some "a@b", full_name := none }) 0
        []).finalHash = "" :=
  (supabaseRootHandler_success_clears_fragment [] "#access_token=tok1" "/"
    { id := "u1", email := some "a@b", full_name := none } 0 []
    (by decide) (by decide) (by decide)).1

/-- C4: when the `SupabaseCallback` implicit-flow establishment reaches the
identity lookup and that lookup fails or returns no subject, the attempt
fails with an identity-fetch failure and nothing is persisted; moreover on
every non-established path of the handler the stored session and
bearer-token state is unchanged and the auth context is not updated. -/
theorem supabaseCallback_identity_failure_not_persisted
    (q : List (String × String)) (hash : String) (g : GetUserResult)
    (now : Int) (ls : Storage)
    (herr : jsTruthy (getParam q "error") = false)
    (hh : hash ≠ "")
    (htok : jsTruthy (getParam (parseQueryString (hash.drop 1))
        "access_token") = true)
    (hg : (∃ m, g = .err m) ∨ g = .noUser) :
    (∃ m, (supabaseCallback q hash true g now ls).outcome =
        .identityFetchFailed m) ∧
    (supabaseCallback q hash true g now ls).storage = ls ∧
    (supabaseCallback q hash true g now ls).contextLogin = none ∧
    ∀ q2 hash2 cfg g2 now2 ls2,
      (supabaseCallback q2 hash2 cfg g2 now2 ls2).outcome ≠ .established →
      (supabaseCallback q2 hash2 cfg g2 now2 ls2).storage = ls2 ∧
      (supabaseCallback q2 hash2 cfg g2 now2 ls2).contextLogin = none := by
  refine ⟨?_, ?_, ?_, ?_⟩
  · rcases hg with ⟨m, rfl⟩ | rfl
    · exact ⟨m, by simp [supabaseCallback, herr, hh, htok]⟩
    · exact ⟨"No user found after setting session",
        by simp [supabaseCallback, herr, hh, htok]⟩
  · rcases hg with ⟨m, rfl⟩ | rfl <;> simp [supabaseCallback, herr, hh, htok]
  · rcases hg with ⟨m, rfl⟩ | rfl <;> simp [supabaseCallback, herr, hh, htok]
  · intro q2 hash2 cfg g2 now2 ls2 h
    by_cases he : jsTruthy (getParam q2 "error")
    · simp [supabaseCallback, he]
    · by_cases h2 : hash2 = ""
      · simp [supabaseCallback, he, h2]
      · by_cases ht : jsTruthy (getParam (parseQueryString (hash2.drop 1))
            "access_token")
        · by_cases hcfg : cfg
          · cases g2 with
            | err m => simp [supabaseCallback, he, h2, ht, hcfg]
            | noUser => simp [supabaseCallback, he, h2, ht, hcfg]
            | ok u =>
              exfalso
              exact h (by simp [supabaseCallback, he, h2, ht, hcfg])
          · simp [supabaseCallback, he, h2, ht, hcfg]
        · simp [supabaseCallback, he, h2, ht]

theorem supabaseCallback_identity_failure_not_persisted_witness :
    (∃ m, (supabaseCallback [] "#access_token=tok1" true (.err "boom") 0
        [("token", "old")]).outcome = .identityFetchFailed m) ∧
    (supabaseCallback [] "#access_token=tok1" true (.err "boom") 0
        [("token", "old")]).storage = [("token", "old")] ∧
    (supabaseCallback [] "#access_token=tok1" true (.err "boom") 0
        [("token", "old")]).contextLogin = none :=
  ⟨(supabaseCallback_identity_failure_not_persisted [] "#access_token=tok1"
      (.err "boom") 0 [("token", "old")] (by decide) (by decide) (by decide)
      (Or.inl ⟨"boom", rfl⟩)).1,
   (supabaseCallback_identity_failure_not_persisted [] "#access_token=tok1"
      (.err "boom") 0 [("token", "old")] (by decide) (by decide) (by decide)
      (Or.inl ⟨"boom", rfl⟩)).2.1,
   (supabaseCallback_identity_failure_not_persisted [] "#access_token=tok1"
      (.err "boom") 0 [("token", "old")] (by decide) (by decide) (by decide)
      (Or.inl ⟨"boom", rfl⟩)).2.2.1⟩

/-- C5 counterexample: a fragment that carries `expires_in=0` — a present
`expires_in` value — yields `expiresAt = now + 3600`, not
`now + expires_in = now + 0`: the `parseInt(x) || 3600` default also fires
for a present zero (and for any non-numeric value), not only when
`expires_in` is absent. -/
theorem parseImplicitCallback_zero_expires_defaults :
    parseImplicitCallback "#access_token=tok&expires_in=0" 1000 =
      .parsed { access_token := "tok", refresh_token := none,
                expires_in := 3600, token_type := "bearer",
                expires_at := 4600 } ∧
    (4600 : Int) ≠ 1000 + 0 := by
  decide

/-- C5 amended: `parseImplicitCallback` fails with `MissingFragment` on
an absent fragment and with `MissingAccessToken` when the fragment lacks a
truthy `access_token`; otherwise it returns a session whose `expiresAt` is
`now + e` where `e` is `expires_in` parsed as an integer when that parse
yields a nonzero number and `3600` otherwise (absent, non-numeric, or
zero), and whose `tokenType` is `token_type` when present and nonempty and
`"bearer"` otherwise. -/
theorem parseImplicitCallback_characterization (hash : String) (now : Int)
    (a : String)
    (hh : hash ≠ "")
    (ha : getParam (parseQueryString (hash.drop 1)) "access_token" = some a)
    (hne : a ≠ "") :
    (∀ n : Int, parseImplicitCallback "" n = .missingFragment) ∧
    (∀ h2 : String, ∀ n : Int, h2 ≠ "" →
      jsTruthy (getParam (parseQueryString (h2.drop 1)) "access_token")
        = false →
      parseImplicitCallback h2 n = .missingAccessToken) ∧
    parseImplicitCallback hash now =
      .parsed
        { access_token := a
          refresh_token :=
            getParam (parseQueryString (hash.drop 1)) "refresh_token"
          expires_in :=
            match jsParseIntOpt
                (getParam (parseQueryString (hash.drop 1)) "expires_in") with
            | some v => if v = 0 then 3600 else v
            | none => 3600
          token_type :=
            match getParam (parseQueryString (hash.drop 1)) "token_type" with
            | some t => if t = "" then "bearer" else t
            | none => "bearer"
          expires_at := now +
            match jsParseIntOpt
                (getParam (parseQueryString (hash.drop 1)) "expires_in") with
            | some v => if v = 0 then 3600 else v
            | none => 3600 } := by
  refine ⟨fun n => rfl, ?_, ?_⟩
  · intro h2 n hh2 htok
    simp [parseImplicitCallback, hh2, htok]
  · have htruthy : jsTruthy
        (getParam (parseQueryString (hash.drop 1)) "access_token") = true := by
      rw [ha]
      simpa [jsTruthy] using hne
    simp only [parseImplicitCallback, hh, if_false, htruthy]
    simp [mkImplicitSession, ha, orDefaultInt, orDefaultStr]

theorem parseImplicitCallback_characterization_witness :
    parseImplicitCallback "#access_token=tok&expires_in=120&token_type=mac"
        50 =
      .parsed { access_token := "tok", refresh_token := none,
                expires_in := 120, token_type := "mac",
                expires_at := 170 } := by
  have h := (parseImplicitCallback_characterization
    "#access_token=tok&expires_in=120&token_type=mac" 50 "tok"
    (by decide) (by decide) (by decide)).2.2
  rw [h]
  decide

/-- C6 counterexample: `supabaseDirect.signOut` is a session-clear
invocation for which a failing remote invalidation is rethrown rather than
only logged, and the `supabase_token` key is left in place — the clear
does not proceed and the operation does not succeed. -/
theorem signOutDirect_remote_failure_blocks_clear :
    signOutDirect (.errValue "boom") [("supabase_token", "x")] =
      (Except.error "boom", [("supabase_token", "x")]) :=
  rfl

/-- C6 amended: `authService.logout` removes the local `token` key,
leaves no truthy `supabase_session`, and returns success for every remote
outcome — including a remote error value (only logged) and a thrown remote
error (caught) — so `load` (`checkAuthStatus`) afterwards reports
unauthenticated regardless of the remote call; `supabaseDirect.signOut`,
by contrast, propagates a remote failure and leaves `supabase_token`
untouched in that case. -/
theorem logout_always_clears_locally :
    (∀ (configOk : Bool) (remote : RemoteSignOutResult) (ls : Storage),
      (logout configOk remote ls).1 = true ∧
      Storage.getItem (logout configOk remote ls).2 "token" = none ∧
      jsTruthy (Storage.getItem (logout configOk remote ls).2
        "supabase_session") = false ∧
      checkAuthStatus (logout configOk remote ls).2 = false) ∧
    (∀ (m : String) (ls : Storage),
      signOutDirect (.errValue m) ls = (Except.error m, ls)) ∧
    (∀ (m : String) (ls : Storage),
      signOutDirect (.throws m) ls = (Except.error m, ls)) := by
  refine ⟨?_, fun m ls => rfl, fun m ls => rfl⟩
  intro cfg remote ls
  have h1 : ∀ l : Storage,
      Storage.getItem ((Storage.removeItem l "supabase_session").removeItem
        "token") "token" = none :=
    fun l => Storage.getItem_removeItem _ _
  have h2 : ∀ l : Storage,
      Storage.getItem ((Storage.removeItem l "supabase_session").removeItem
        "token") "supabase_session" = none := by
    intro l
    rw [Storage.getItem_removeItem_ne _ _ _ (by decide)]
    exact Storage.getItem_removeItem _ _
  have h3 : ∀ l : Storage,
      Storage.getItem ((Storage.removeItem l "token").removeItem
        "supabase_session") "token" = none := by
    intro l
    rw [Storage.getItem_removeItem_ne _ _ _ (by decide)]
    exact Storage.getItem_removeItem _ _
  have h4 : ∀ l : Storage,
      Storage.getItem ((Storage.removeItem l "token").removeItem
        "supabase_session") "supabase_session" = none :=
    fun l => Storage.getItem_removeItem _ _
  have h5 : Storage.getItem (Storage.removeItem ls "token") "token" = none :=
    Storage.getItem_removeItem _ _
  have h6 : Storage.getItem (Storage.removeItem ls "token")
      "supabase_session" = Storage.getItem ls "supabase_session" :=
    Storage.getItem_removeItem_ne _ _ _ (by decide)
  by_cases hss : jsTruthy (Storage.getItem ls "supabase_session")
  · by_cases hcfg : cfg
    · cases remote with
      | ok =>
        have hst2 : (logout cfg RemoteSignOutResult.ok ls).2 =
            (Storage.removeItem ls "supabase_session").removeItem "token" := by
          simp [logout, hss, hcfg]
        exact ⟨by simp [logout, hss, hcfg],
          by rw [hst2, h1],
          by rw [hst2, h2]; rfl,
          by unfold checkAuthStatus; rw [hst2, h1, h2]; rfl⟩
      | errValue m =>
        have hst2 : (logout cfg (RemoteSignOutResult.errValue m) ls).2 =
            (Storage.removeItem ls "supabase_session").removeItem "token" := by
          simp [logout, hss, hcfg]
        exact ⟨by simp [logout, hss, hcfg],
          by rw [hst2, h1],
          by rw [hst2, h2]; rfl,
          by unfold checkAuthStatus; rw [hst2, h1, h2]; rfl⟩
      | throws m =>
        have hst2 : (logout cfg (RemoteSignOutResult.throws m) ls).2 =
            (Storage.removeItem ls "token").removeItem "supabase_session" := by
          simp [logout, hss, hcfg]
        exact ⟨by simp [logout, hss, hcfg],
          by rw [hst2, h3],
          by rw [hst2, h4]; rfl,
          by unfold checkAuthStatus; rw [hst2, h3, h4]; rfl⟩
    · have hst2 : (logout cfg remote ls).2 =
          (Storage.removeItem ls "supabase_session").removeItem "token" := by
        cases remote <;> simp [logout, hss, hcfg]
      exact ⟨by cases remote <;> simp [logout, hss, hcfg],
        by rw [hst2, h1],
        by rw [hst2, h2]; rfl,
        by unfold checkAuthStatus; rw [hst2, h1, h2]; rfl⟩
  · have hst2 : (logout cfg remote ls).2 = Storage.removeItem ls "token" := by
      cases remote <;> simp [logout, hss]
    refine ⟨by cases remote <;> simp [logout, hss], ?_, ?_, ?_⟩
    · rw [hst2, h5]
    · rw [hst2, h6]
      simpa using hss
    · unfold checkAuthStatus
      rw [hst2, h5, h6]
      simpa [jsTruthy] using hss

/-- C7 counterexample: an exchange that completes without error but whose
response body has no `access_token` is reported as a success by
`handleGoogleCallback` — the returned value is `ok`, not a
`NoSessionReturned` failure — while storage stays unchanged. -/
theorem handleGoogleCallback_no_token_reports_success :
    handleGoogleCallbackM (.ok none) [("k", "v")] =
      (Except.ok none, [("k", "v")]) :=
  rfl

/-- C7 amended: when the exchange completes without a network/provider
error but yields no usable access token (absent or empty), the code-flow
establishment reports success with the raw response data and stores no
bearer token — there is no `NoSessionReturned` failure; a nonempty token
is stored under `token` and also reported as success. -/
theorem handleGoogleCallback_missing_token_silent :
    (∀ ls : Storage,
      handleGoogleCallbackM (.ok none) ls = (Except.ok none, ls)) ∧
    (∀ ls : Storage,
      handleGoogleCallbackM (.ok (some "")) ls = (Except.ok (some ""), ls)) ∧
    ∀ (ls : Storage) (tok : String), tok ≠ "" →
      handleGoogleCallbackM (.ok (some tok)) ls =
        (Except.ok (some tok), ls.setItem "token" tok) := by
  refine ⟨fun ls => rfl, fun ls => rfl, ?_⟩
  intro ls tok h
  simp [handleGoogleCallbackM, jsTruthy, h]

theorem handleGoogleCallback_missing_token_silent_witness :
    handleGoogleCallbackM (.ok (some "abc")) [] =
      (Except.ok (some "abc"), Storage.setItem [] "token" "abc") :=
  handleGoogleCallback_missing_token_silent.2.2 [] "abc" (by decide)

/-- C8: on every `AuthProvider` mount, `loading` starts `true` and ends
`false`; the mount-effect trace sets it to `false` exactly once, contains
no network call, and consists of the two synchronous storage reads
followed by the loading transition; the resulting authenticated flag is
exactly the synchronous persisted-state check. -/
theorem authProviderMount_loading_transition (ls : Storage) :
    (authProviderMount ls).1.loading = true ∧
    (authProviderMount ls).2.1.loading = false ∧
    (authProviderMount ls).2.2.count MountEvent.setLoadingFalse = 1 ∧
    (authProviderMount ls).2.2.filter isNetworkCall = [] ∧
    (authProviderMount ls).2.2 =
      [MountEvent.storageRead "token",
       MountEvent.storageRead "supabase_session",
       MountEvent.setLoadingFalse] ∧
    (authProviderMount ls).2.1.isAuthenticated = checkAuthStatus ls := by
  refine ⟨rfl, rfl, ?_, rfl, rfl, rfl⟩
  have htr : (authProviderMount ls).2.2 =
      [MountEvent.storageRead "token",
       MountEvent.storageRead "supabase_session",
       MountEvent.setLoadingFalse] := rfl
  rw [htr]
  decide

/-- C9: a successful run of `supabaseDirect.handleSupabaseCallback` writes
only the `supabase_token` key: every other key is unchanged; in a store
where the app's keys are absent, `App.isAuthenticated` and the
`AuthContext` persisted-state check both remain false afterwards, and the
cross-tab storage listener does not react to the `supabase_token` key. -/
theorem handleSupabaseCallbackD_only_supabase_token
    (tok : String) (ls : Storage)
    (htok : Storage.getItem ls "token" = none)
    (hss : Storage.getItem ls "supabase_session" = none) :
    (handleSupabaseCallbackD (.ok tok) ls).1 = Except.ok tok ∧
    (∀ k, k ≠ "supabase_token" →
      Storage.getItem (handleSupabaseCallbackD (.ok tok) ls).2 k =
        Storage.getItem ls k) ∧
    appIsAuthenticated (handleSupabaseCallbackD (.ok tok) ls).2 = false ∧
    checkAuthStatus (handleSupabaseCallbackD (.ok tok) ls).2 = false ∧
    storageListenerReacts "supabase_token" = false := by
  have hstore : (handleSupabaseCallbackD (.ok tok) ls).2 =
      Storage.setItem ls "supabase_token" tok := rfl
  have hgt : Storage.getItem (Storage.setItem ls "supabase_token" tok)
      "token" = Storage.getItem ls "token" :=
    Storage.getItem_setItem_ne ls "supabase_token" tok "token" (by decide)
  have hgs : Storage.getItem (Storage.setItem ls "supabase_token" tok)
      "supabase_session" = Storage.getItem ls "supabase_session" :=
    Storage.getItem_setItem_ne ls "supabase_token" tok "supabase_session"
      (by decide)
  refine ⟨rfl, ?_, ?_, ?_, by decide⟩
  · intro k hk
    rw [hstore, Storage.getItem_setItem_ne ls "supabase_token" tok k hk]
  · simp [appIsAuthenticated, hstore, hgt, htok]
  · simp [checkAuthStatus, hstore, hgt, hgs, htok, hss, jsTruthy]

theorem handleSupabaseCallbackD_only_supabase_token_witness :
    appIsAuthenticated (handleSupabaseCallbackD (.ok "t") []).2 = false ∧
    checkAuthStatus (handleSupabaseCallbackD (.ok "t") []).2 = false :=
  ⟨(handleSupabaseCallbackD_only_supabase_token "t" [] (by decide)
      (by decide)).2.2.1,
   (handleSupabaseCallbackD_only_supabase_token "t" [] (by decide)
      (by decide)).2.2.2.1⟩

/-- C10: a registration submit with differing password and confirmation
sets the error message "Passwords do not match" and returns before any
network request, leaving stored state unchanged, for every possible remote
outcome. -/
theorem registerSubmit_mismatch_no_request
    (password confirmPassword : String) (remote : Except String Unit)
    (ls : Storage) (h : password ≠ confirmPassword) :
    registerSubmit password confirmPassword remote ls =
      { view := { error := "Passwords do not match", success := "",
                  loading := false },
        storage := ls, requestSent := false } := by
  simp [registerSubmit, h]

theorem registerSubmit_mismatch_no_request_witness :
    registerSubmit "a" "b" (Except.ok ()) [] =
      { view := { error := "Passwords do not match", success := "",
                  loading := false },
        storage := [], requestSent := false } :=
  registerSubmit_mismatch_no_request "a" "b" (Except.ok ()) [] (by decide)
